import Mathlib

/-!
Verification development for the TravelGenie travel-guide application.

The TypeScript sources are shallowly embedded in Lean:

* `geminiService.ts` (structured-guide generation, hero image, gallery) is
  modelled by pure functions over explicit request/response values; a network
  call that can reject is an `Except Unit` input, and JavaScript `undefined`
  is `Option.none`.
* `TravelForm.tsx` (autocomplete matching, form state, submit handler) is
  modelled with strings as lists of characters, so that the case-folding and
  prefix matching of the JavaScript string methods can be reasoned about
  directly.
* `ResultView.tsx` (tab state, deferred map re-centering) is modelled as a
  state record with explicit transition functions.

JavaScript-specific behaviour (truthiness of empty strings, `parseInt`,
`Array.from(new Set(...))` first-seen deduplication, `Promise.all`
rejection) is embedded explicitly where the source relies on it.
-/

/- ### Character-list string helpers

These model the JavaScript string methods used by the sources:
`toLowerCase`, `trim`, `startsWith` (via `List.isPrefixOf`), and
`includes`.  Whitespace is modelled as the four common ASCII whitespace
characters. -/

/-- Case folding, modelling `String.prototype.toLowerCase` on ASCII data. -/
def toLowerStr (s : List Char) : List Char := s.map Char.toLower

/-- ASCII whitespace test used by the `trim` model. -/
def isSpaceChar (c : Char) : Bool := c == ' ' || c == '\t' || c == '\n' || c == '\r'

/-- Model of `String.prototype.trim`: drop whitespace from both ends. -/
def trimStr (s : List Char) : List Char :=
  ((s.dropWhile isSpaceChar).reverse.dropWhile isSpaceChar).reverse

/-- Whether a character-list string is empty or starts with whitespace. -/
def headIsSpace (s : List Char) : Bool :=
  match s with
  | [] => true
  | c :: _ => isSpaceChar c

/-- Model of `hay.includes(needle)`: `needle` occurs contiguously in `hay`. -/
def strIncludes (hay needle : List Char) : Bool :=
  needle.isPrefixOf hay ||
    (match hay with
     | [] => false
     | _ :: t => strIncludes t needle)

/-- First-seen deduplication with an accumulator of already-seen elements;
`dedupFirst` below models `Array.from(new Set(xs))`, which keeps the first
occurrence of each element in insertion order. -/
def dedupFirstAux {α : Type} [DecidableEq α] : List α → List α → List α
  | _, [] => []
  | seen, a :: l => if a ∈ seen then dedupFirstAux seen l else a :: dedupFirstAux (a :: seen) l

/-- Model of `Array.from(new Set(xs))`: first occurrences, insertion order. -/
def dedupFirst {α : Type} [DecidableEq α] (l : List α) : List α := dedupFirstAux [] l

/- ### Data model (`types.ts`) -/

/-- Geographic coordinates (`Coordinates` in `types.ts`); JSON numbers are
modelled as rationals. -/
structure Coordinates where
  lat : ℚ
  lng : ℚ
deriving DecidableEq, Repr

/-- Weather summary (`WeatherSummary` in `types.ts`). -/
structure WeatherSummary where
  temperature : String
  condition : String
  packingSuggestion : String
deriving DecidableEq, Repr

/-- Attraction entry (`Attraction` in `types.ts`). -/
structure Attraction where
  name : String
  benefit : String
  coordinates : Coordinates
deriving DecidableEq, Repr

/-- Single itinerary activity (`ItineraryActivity` in `types.ts`). -/
structure ItineraryActivity where
  time : String
  activity : String
deriving DecidableEq, Repr

/-- One day of the itinerary (`DailyItinerary` in `types.ts`). -/
structure DailyItinerary where
  day : ℚ
  theme : String
  activities : List ItineraryActivity
deriving DecidableEq, Repr

/-- Local tip (`LocalTip` in `types.ts`). -/
structure LocalTip where
  category : String
  tip : String
deriving DecidableEq, Repr

/-- Full city guide (`CityGuideData` in `types.ts`).  The optional fields
`imageUrl?` and `gallery?` are `Option`s. -/
structure CityGuideData where
  city : String
  country : String
  coordinates : Coordinates
  introduction : String
  weather : WeatherSummary
  attractions : List Attraction
  mapContext : String
  itinerary : List DailyItinerary
  localTips : List LocalTip
  imageUrl : Option String
  gallery : Option (List String)
deriving DecidableEq, Repr

/-- Form fields (`FormState` in `types.ts`); the form module models strings
as character lists. -/
structure FormState where
  city : List Char
  country : List Char
  duration : List Char
deriving DecidableEq, Repr

/- ### `TravelForm.tsx`: location directory and autocomplete matching -/

/-- One entry of the static autocomplete directory. -/
structure Location where
  city : List Char
  country : List Char
deriving DecidableEq, Repr

/-- The static `POPULAR_LOCATIONS` directory from `TravelForm.tsx`. -/
def POPULAR_LOCATIONS : List Location := [
  ⟨"Paris".data, "France".data⟩,
  ⟨"Nice".data, "France".data⟩,
  ⟨"Lyon".data, "France".data⟩,
  ⟨"Marseille".data, "France".data⟩,
  ⟨"London".data, "United Kingdom".data⟩,
  ⟨"Edinburgh".data, "United Kingdom".data⟩,
  ⟨"Manchester".data, "United Kingdom".data⟩,
  ⟨"New York".data, "USA".data⟩,
  ⟨"Los Angeles".data, "USA".data⟩,
  ⟨"San Francisco".data, "USA".data⟩,
  ⟨"Chicago".data, "USA".data⟩,
  ⟨"Miami".data, "USA".data⟩,
  ⟨"Las Vegas".data, "USA".data⟩,
  ⟨"Tokyo".data, "Japan".data⟩,
  ⟨"Kyoto".data, "Japan".data⟩,
  ⟨"Osaka".data, "Japan".data⟩,
  ⟨"Rome".data, "Italy".data⟩,
  ⟨"Florence".data, "Italy".data⟩,
  ⟨"Venice".data, "Italy".data⟩,
  ⟨"Milan".data, "Italy".data⟩,
  ⟨"Barcelona".data, "Spain".data⟩,
  ⟨"Madrid".data, "Spain".data⟩,
  ⟨"Seville".data, "Spain".data⟩,
  ⟨"Dubai".data, "UAE".data⟩,
  ⟨"Abu Dhabi".data, "UAE".data⟩,
  ⟨"Singapore".data, "Singapore".data⟩,
  ⟨"Amsterdam".data, "Netherlands".data⟩,
  ⟨"Rotterdam".data, "Netherlands".data⟩,
  ⟨"Bangkok".data, "Thailand".data⟩,
  ⟨"Phuket".data, "Thailand".data⟩,
  ⟨"Chiang Mai".data, "Thailand".data⟩,
  ⟨"Sydney".data, "Australia".data⟩,
  ⟨"Melbourne".data, "Australia".data⟩,
  ⟨"Istanbul".data, "Turkey".data⟩,
  ⟨"Antalya".data, "Turkey".data⟩,
  ⟨"Prague".data, "Czech Republic".data⟩,
  ⟨"Vienna".data, "Austria".data⟩,
  ⟨"Lisbon".data, "Portugal".data⟩,
  ⟨"Porto".data, "Portugal".data⟩,
  ⟨"Berlin".data, "Germany".data⟩,
  ⟨"Munich".data, "Germany".data⟩,
  ⟨"Hamburg".data, "Germany".data⟩,
  ⟨"Santorini".data, "Greece".data⟩,
  ⟨"Athens".data, "Greece".data⟩,
  ⟨"Mykonos".data, "Greece".data⟩,
  ⟨"Bali".data, "Indonesia".data⟩,
  ⟨"Jakarta".data, "Indonesia".data⟩,
  ⟨"Hong Kong".data, "China".data⟩,
  ⟨"Seoul".data, "South Korea".data⟩,
  ⟨"Busan".data, "South Korea".data⟩,
  ⟨"Rio de Janeiro".data, "Brazil".data⟩,
  ⟨"Sao Paulo".data, "Brazil".data⟩,
  ⟨"Cape Town".data, "South Africa".data⟩,
  ⟨"Johannesburg".data, "South Africa".data⟩,
  ⟨"Cairo".data, "Egypt".data⟩,
  ⟨"Marrakech".data, "Morocco".data⟩,
  ⟨"Toronto".data, "Canada".data⟩,
  ⟨"Vancouver".data, "Canada".data⟩,
  ⟨"Montreal".data, "Canada".data⟩,
  ⟨"Mumbai".data, "India".data⟩,
  ⟨"Delhi".data, "India".data⟩,
  ⟨"Jaipur".data, "India".data⟩,
  ⟨"Cancun".data, "Mexico".data⟩,
  ⟨"Mexico City".data, "Mexico".data⟩]

/-- The filter predicate of `handleCityChange` in `TravelForm.tsx`:
`matchCity` is `loc.city.toLowerCase().startsWith(value.toLowerCase())`;
`matchCountry` applies only when the country field is truthy (non-empty)
and is `loc.country.toLowerCase() === country.toLowerCase() ||
loc.country.toLowerCase().includes(country.toLowerCase())`. -/
def cityMatches (value country : List Char) (loc : Location) : Bool :=
  let matchCity := (toLowerStr value).isPrefixOf (toLowerStr loc.city)
  let matchCountry :=
    if country ≠ [] then
      (toLowerStr loc.country == toLowerStr country) ||
        strIncludes (toLowerStr loc.country) (toLowerStr country)
    else true
  matchCity && matchCountry

/-- The city-suggestion list computed by `handleCityChange`: when the typed
value is non-blank after trimming, filter the directory with `cityMatches`;
otherwise the suggestion list is cleared. -/
def matchCities (value country : List Char) : List Location :=
  if 0 < (trimStr value).length then POPULAR_LOCATIONS.filter (cityMatches value country)
  else []

/-- The country-suggestion list computed by `handleCountryChange`: when the
typed value is non-blank after trimming, the unique (`Array.from(new
Set(...))`) country names of the directory whose lower-cased name starts
with the lower-cased input; otherwise cleared. -/
def matchCountries (value : List Char) : List (List Char) :=
  if 0 < (trimStr value).length then
    dedupFirst ((POPULAR_LOCATIONS.map (fun loc => loc.country)).filter
      (fun c => (toLowerStr value).isPrefixOf (toLowerStr c)))
  else []

/-- Which input is focused (`activeField` in `TravelForm.tsx`). -/
inductive ActiveField where
  | city : ActiveField
  | country : ActiveField
  | duration : ActiveField
deriving DecidableEq, Repr

/-- Local state of the `TravelForm` component: form data, focus marker,
suggestion lists and dropdown visibility flags. -/
structure FormComponentState where
  formData : FormState
  activeField : Option ActiveField
  citySuggestions : List Location
  countrySuggestions : List (List Char)
  showCityDropdown : Bool
  showCountryDropdown : Bool
deriving DecidableEq, Repr

/-- `handleCityChange`: store the typed value and recompute the city
suggestions and dropdown visibility against the sibling country field. -/
def handleCityChange (value : List Char) (s : FormComponentState) : FormComponentState :=
  { s with
    formData := { s.formData with city := value }
    citySuggestions := matchCities value s.formData.country
    showCityDropdown := decide (0 < (trimStr value).length) }

/-- `handleCountryChange`: store the typed value and recompute the country
suggestions and dropdown visibility. -/
def handleCountryChange (value : List Char) (s : FormComponentState) : FormComponentState :=
  { s with
    formData := { s.formData with country := value }
    countrySuggestions := matchCountries value
    showCountryDropdown := decide (0 < (trimStr value).length) }

/-- `handleSubmit` in `TravelForm.tsx`: unconditionally close both dropdowns
and clear the focus marker, then invoke `onSubmit` with the current form
data only if both `city` and `country` are truthy after trimming.  The
second component is the payload handed to the orchestrator (`none` when the
submission is rejected). -/
def handleSubmit (s : FormComponentState) : FormComponentState × Option FormState :=
  let s2 := { s with showCityDropdown := false, showCountryDropdown := false, activeField := none }
  if !(trimStr s.formData.city).isEmpty && !(trimStr s.formData.country).isEmpty then
    (s2, some s.formData)
  else (s2, none)

/-- Whole-string signed decimal integer parser; models the value space of a
sanitized HTML `<input type="number">` whose `step` is the default 1. -/
def parseIntStrict (s : List Char) : Option Int :=
  let core : List Char → Option Nat := fun ds =>
    if !ds.isEmpty && ds.all Char.isDigit then
      some (ds.foldl (fun acc c => acc * 10 + (c.toNat - '0'.toNat)) 0)
    else none
  match s with
  | '-' :: r => (core r).map (fun n => -(n : Int))
  | '+' :: r => (core r).map (fun n => (n : Int))
  | _ => (core s).map (fun n => (n : Int))

/-- Native constraint validation of the duration input, as declared by its
attributes in `TravelForm.tsx`: `type="number" min="1" max="14" required`.
The browser blocks form submission (so `handleSubmit` never runs) unless
the value is a number between 1 and 14; with the default `step` of 1 the
accepted values are integers. -/
def durationFieldValid (d : List Char) : Bool :=
  match parseIntStrict d with
  | some n => decide (1 ≤ n) && decide (n ≤ 14)
  | none => false

/-- Native constraint validation of the whole form: all three inputs carry
`required`, and the duration input additionally carries `min="1"
max="14"` (see `durationFieldValid`). -/
def nativeFormValid (f : FormState) : Bool :=
  !f.city.isEmpty && !f.country.isEmpty && durationFieldValid f.duration

/-- The full submit pipeline of the form: the browser's native constraint
validation gates `handleSubmit`.  Returns the component state afterwards
and the payload handed to the orchestrator, if any. -/
def submitForm (s : FormComponentState) : FormComponentState × Option FormState :=
  if nativeFormValid s.formData then handleSubmit s else (s, none)

/- ### `geminiService.ts`: guide, hero image and gallery generation -/

/-- JavaScript `parseInt` with no radix argument: skip leading whitespace,
read an optional sign, detect a `0x`/`0X` hexadecimal prefix, then take the
longest run of digits of the radix; `none` models `NaN` (no digits). -/
def jsParseInt (s : String) : Option Int :=
  let digitVal : Nat → Char → Option Nat := fun radix c =>
    let v : Nat :=
      if '0' ≤ c ∧ c ≤ '9' then c.toNat - '0'.toNat
      else if 'a' ≤ c ∧ c ≤ 'z' then c.toNat - 'a'.toNat + 10
      else if 'A' ≤ c ∧ c ≤ 'Z' then c.toNat - 'A'.toNat + 10
      else 99
    if v < radix then some v else none
  let cs := s.data.dropWhile isSpaceChar
  let signAndRest : Int × List Char :=
    match cs with
    | '-' :: r => (-1, r)
    | '+' :: r => (1, r)
    | _ => (1, cs)
  let radixAndRest : Nat × List Char :=
    match signAndRest.2 with
    | '0' :: 'x' :: r => (16, r)
    | '0' :: 'X' :: r => (16, r)
    | _ => (10, signAndRest.2)
  let ds := radixAndRest.2.takeWhile (fun c => (digitVal radixAndRest.1 c).isSome)
  if ds.isEmpty then none
  else
    some (signAndRest.1 *
      (ds.foldl (fun acc c => acc * (radixAndRest.1 : Int) + ((digitVal radixAndRest.1 c).getD 0 : Nat)) 0))

/-- Line 13 of `geminiService.ts`: `const numDays = parseInt(duration) || 1`.
JavaScript `||` replaces the falsy numbers `NaN` and `0` with the default. -/
def numDaysOf (duration : String) : Int :=
  match jsParseInt duration with
  | some n => if n = 0 then 1 else n
  | none => 1

/-- JavaScript `a || b` on an optionally-present string field: the default
is used when the field is absent (`none`) or empty (falsy). -/
def jsStrOr (v : Option String) (d : String) : String :=
  match v with
  | some s => if s = "" then d else s
  | none => d

/-- The structured-content JSON as parsed by `JSON.parse` in
`generateCityGuide`: every top-level field may be absent.  A present
non-array value under an array field behaves like an absent one (the source
guards with `Array.isArray`). -/
structure ParsedData where
  city : Option String
  country : Option String
  coordinates : Option Coordinates
  introduction : Option String
  weather : Option WeatherSummary
  attractions : Option (List Attraction)
  mapContext : Option String
  itinerary : Option (List DailyItinerary)
  localTips : Option (List LocalTip)
deriving DecidableEq, Repr

/-- Outcome of the structured-content request observed by
`generateCityGuide`: the API call rejected, `response.text` was absent or
empty (`!jsonText`), `JSON.parse` threw, or parsing produced a value. -/
inductive ContentResponse where
  | apiError : ContentResponse
  | missingText : ContentResponse
  | parseError : ContentResponse
  | json : ParsedData → ContentResponse
deriving DecidableEq, Repr

/-- The request data sent by `generateCityGuide` (model name, target and
the day count interpolated into the prompt). -/
structure GuideRequest where
  model : String
  city : String
  country : String
  numDays : Int
deriving DecidableEq, Repr

/-- The `safeData` sanitizing merge of `generateCityGuide` (lines 124-142):
each top-level field falls back to a documented default when absent (or,
for string fields, empty); `imageUrl` and `gallery` are not set here. -/
def sanitizeGuide (city country : String) (p : ParsedData) : CityGuideData :=
  { city := jsStrOr p.city city
    country := jsStrOr p.country country
    coordinates := p.coordinates.getD ⟨0, 0⟩
    introduction := jsStrOr p.introduction "Information currently unavailable."
    weather := p.weather.getD ⟨"N/A", "Unknown", "Please check local forecast."⟩
    attractions := p.attractions.getD []
    mapContext := jsStrOr p.mapContext "Map details unavailable."
    itinerary := p.itinerary.getD []
    localTips := p.localTips.getD []
    imageUrl := none
    gallery := none }

/-- `generateCityGuide`: builds the request (with `numDays` from
`numDaysOf`) and, given the observed response, either rethrows the failure
(API error, missing text, or unparseable JSON — the `catch` block rethrows)
or returns the sanitized guide. -/
def generateCityGuide (city country duration : String) (resp : ContentResponse) :
    GuideRequest × Except Unit CityGuideData :=
  (⟨"gemini-2.5-flash", city, country, numDaysOf duration⟩,
    match resp with
    | ContentResponse.json p => Except.ok (sanitizeGuide city country p)
    | _ => Except.error ())

/-- Inline image payload of a generative-image response part. -/
structure InlineData where
  mimeType : String
  data : String
deriving DecidableEq, Repr

/-- One part of a generative-image response; `inlineData` may be absent. -/
structure ImagePart where
  inlineData : Option InlineData
deriving DecidableEq, Repr

/-- A generative-image response; `parts` is
`response.candidates?.[0]?.content?.parts`, absent when any link of that
optional chain is missing. -/
structure ImgResponse where
  parts : Option (List ImagePart)
deriving DecidableEq, Repr

/-- The part-scanning loop shared by `generateCityImage` and the gallery
sub-requests: return a data URL for the first part with truthy
`inlineData.data`, else `undefined`. -/
def findInlineImage : List ImagePart → Option String
  | [] => none
  | p :: rest =>
    match p.inlineData with
    | some d =>
      if d.data = "" then findInlineImage rest
      else some ("data:" ++ d.mimeType ++ ";base64," ++ d.data)
    | none => findInlineImage rest

/-- `generateCityImage`: a rejected call is caught and resolves to
`undefined` (the hero image is optional); otherwise scan the response parts
for an inline image. -/
def generateCityImage (resp : Except Unit ImgResponse) : Option String :=
  match resp with
  | Except.error _ => none
  | Except.ok r =>
    match r.parts with
    | some parts => findInlineImage parts
    | none => none

/-- One gallery sub-request of `generateCityGallery`: its own `catch` maps
a rejection to `undefined`, so a failed sub-request never rejects the
batch; otherwise scan the parts for an inline image. -/
def generateGallerySub (resp : Except Unit ImgResponse) : Option String :=
  match resp with
  | Except.error _ => none
  | Except.ok r =>
    match r.parts with
    | some parts => findInlineImage parts
    | none => none

/-- `generateCityGallery`: run the sub-requests, then
`results.filter(img => img !== undefined)` keeps the successful images in
order.  (The surrounding `try`/`catch` is unreachable because every
sub-promise resolves.) -/
def generateCityGallery (resps : List (Except Unit ImgResponse)) : List String :=
  (resps.map generateGallerySub).filterMap id

/-- The `Promise.all` orchestration of `handleFormSubmit` in `App.tsx`
(the `generateGuide` contract of the specification): if the structured
guide fails the whole submission fails; otherwise merge in the hero image
(`imageUrl`, possibly absent) and the gallery list (always an array). -/
def generateGuide (city country duration : String) (content : ContentResponse)
    (hero : Except Unit ImgResponse) (galleryResps : List (Except Unit ImgResponse)) :
    Except Unit CityGuideData :=
  match (generateCityGuide city country duration content).2 with
  | Except.error e => Except.error e
  | Except.ok g =>
    Except.ok { g with
      imageUrl := generateCityImage hero
      gallery := some (generateCityGallery galleryResps) }

/- ### `ResultView.tsx`: tab state and deferred map jump -/

/-- The six result tabs (`TabType` in `ResultView.tsx`). -/
inductive Tab where
  | weather : Tab
  | attractions : Tab
  | map : Tab
  | itinerary : Tab
  | tips : Tab
  | photos : Tab
deriving DecidableEq, Repr

/-- Map tile style (`MapStyle` in `ResultView.tsx`). -/
inductive MapStyle where
  | street : MapStyle
  | satellite : MapStyle
deriving DecidableEq, Repr

/-- The mounted map surface: its current center and zoom. -/
structure MapView where
  center : ℚ × ℚ
  zoom : Nat
deriving DecidableEq, Repr

/-- Local state of the `ResultView` component; `mapRef` is `none` while no
map surface is mounted. -/
structure ResultViewState where
  activeTab : Tab
  mapStyle : MapStyle
  mapRef : Option MapView
deriving DecidableEq, Repr

/-- The deferred callback of `jumpToMap` (the `setTimeout` body): when it
eventually runs, it re-centers the map only if a map surface is mounted by
then (`if (mapRef.current)`); otherwise it does nothing. -/
def jumpDeferred (lat lng : ℚ) (s : ResultViewState) : ResultViewState :=
  match s.mapRef with
  | some _ => { s with mapRef := some ⟨(lat, lng), 15⟩ }
  | none => s

/-- `jumpToMap` in `ResultView.tsx` (`jumpToAttraction` of the
specification): synchronously switch to the map tab and schedule the
guarded single-shot re-center to run later against whatever state holds
then. -/
def jumpToMap (lat lng : ℚ) (s : ResultViewState) :
    ResultViewState × (ResultViewState → ResultViewState) :=
  ({ s with activeTab := Tab.map }, jumpDeferred lat lng)

/- ### Helper lemmas -/

/-- Membership in `dedupFirstAux`: an element appears iff it is in the input
and not among the already-seen elements. -/
theorem mem_dedupFirstAux {α : Type} [DecidableEq α] (x : α) (l : List α) :
    ∀ seen, x ∈ dedupFirstAux seen l ↔ (x ∈ l ∧ x ∉ seen) := by
  induction l with
  | nil => intro seen; simp [dedupFirstAux]
  | cons a l ih =>
    intro seen
    by_cases h : a ∈ seen
    · rw [dedupFirstAux, if_pos h, ih seen]
      by_cases hxa : x = a <;> simp_all
    · rw [dedupFirstAux, if_neg h]
      simp only [List.mem_cons, ih (a :: seen)]
      by_cases hxa : x = a <;> simp_all

/-- `dedupFirstAux` never emits duplicates. -/
theorem nodup_dedupFirstAux {α : Type} [DecidableEq α] (l : List α) :
    ∀ seen, (dedupFirstAux seen l).Nodup := by
  induction l with
  | nil => intro seen; simp [dedupFirstAux]
  | cons a l ih =>
    intro seen
    by_cases h : a ∈ seen
    · rw [dedupFirstAux, if_pos h]; exact ih seen
    · rw [dedupFirstAux, if_neg h]
      refine List.nodup_cons.mpr ⟨fun hmem => ?_, ih (a :: seen)⟩
      exact ((mem_dedupFirstAux a l (a :: seen)).mp hmem).2 (List.mem_cons_self a seen)

/-- `dedupFirstAux` keeps elements in their original order. -/
theorem dedupFirstAux_sublist {α : Type} [DecidableEq α] (l : List α) :
    ∀ seen, List.Sublist (dedupFirstAux seen l) l := by
  induction l with
  | nil => intro seen; simp [dedupFirstAux]
  | cons a l ih =>
    intro seen
    by_cases h : a ∈ seen
    · rw [dedupFirstAux, if_pos h]; exact (ih seen).cons a
    · rw [dedupFirstAux, if_neg h]; exact (ih (a :: seen)).cons₂ a

/-- `dedupFirst` preserves membership. -/
theorem mem_dedupFirst {α : Type} [DecidableEq α] (x : α) (l : List α) :
    x ∈ dedupFirst l ↔ x ∈ l := by
  rw [dedupFirst, mem_dedupFirstAux]
  simp

/-- `dedupFirst` has no duplicates. -/
theorem nodup_dedupFirst {α : Type} [DecidableEq α] (l : List α) : (dedupFirst l).Nodup :=
  nodup_dedupFirstAux l []

/-- `dedupFirst` is an order-preserving sublist of its input. -/
theorem dedupFirst_sublist {α : Type} [DecidableEq α] (l : List α) :
    List.Sublist (dedupFirst l) l :=
  dedupFirstAux_sublist l []

/-- Lower-casing fixes whitespace characters. -/
theorem toLower_space {c : Char} (hc : isSpaceChar c = true) : Char.toLower c = c := by
  have hd : ((c = ' ' ∨ c = '\t') ∨ c = '\n') ∨ c = '\r' := by
    simpa [isSpaceChar] using hc
  rcases hd with ((rfl | rfl) | rfl) | rfl <;> decide

/-- Lower-casing distributes over `cons`. -/
theorem toLowerStr_cons (c : Char) (t : List Char) :
    toLowerStr (c :: t) = Char.toLower c :: toLowerStr t := rfl

/-- A non-empty string that trims to nothing starts with a whitespace
character. -/
theorem trim_nil_head_space (s : List Char) (hs : s ≠ []) (h : trimStr s = []) :
    ∃ c t, s = c :: t ∧ isSpaceChar c = true := by
  cases s with
  | nil => exact absurd rfl hs
  | cons c t =>
    refine ⟨c, t, rfl, ?_⟩
    by_contra hc
    have hcb : isSpaceChar c = false := by
      cases hcv : isSpaceChar c
      · rfl
      · exact absurd hcv hc
    rw [trimStr, List.dropWhile_cons, hcb] at h
    simp only [Bool.false_eq_true, if_false, List.reverse_eq_nil_iff,
      List.dropWhile_eq_nil_iff] at h
    have := h c (by simp)
    rw [hcb] at this
    exact Bool.false_ne_true this

/-- No entry of the directory has a city or country name that is empty or
starts with whitespace (after lower-casing). -/
theorem locations_heads_ok :
    POPULAR_LOCATIONS.all
      (fun loc => !headIsSpace (toLowerStr loc.city) && !headIsSpace (toLowerStr loc.country)) = true := by
  decide

/-- A string headed by a whitespace character is never a prefix of a string
that does not start with whitespace. -/
theorem space_prefix_false {c : Char} (hc : isSpaceChar c = true) (rest s : List Char)
    (hs : headIsSpace s = false) : (c :: rest).isPrefixOf s = false := by
  cases s with
  | nil => rfl
  | cons y ys =>
    have hy : isSpaceChar y = false := hs
    have hne : (c == y) = false := by
      cases hcy : c == y
      · rfl
      · rw [show c = y from by simpa using hcy] at hc
        rw [hc] at hy
        exact absurd hy (by simp)
    show (c == y && rest.isPrefixOf ys) = false
    rw [hne]
    rfl

/-- A filter whose predicate fails on every element yields the empty list. -/
theorem filter_false_all {α : Type} {l : List α} {f : α → Bool}
    (h : ∀ a ∈ l, f a = false) : l.filter f = [] := by
  rw [List.filter_eq_nil_iff]
  intro a ha
  simp [h a ha]

/- ### Claim theorems -/

/-- C1: a failed or unparseable structured-content response fails the whole
orchestration; a hero-image failure resolves to an absent `imageUrl`; failed
gallery sub-requests are filtered out without aborting the others; and with
a failed hero image, two successful gallery images and one failed gallery
image, `generateGuide` resolves with `imageUrl` absent and a gallery of
exactly the two successful images. -/
theorem orchestration_fault_isolation (city country duration : String) (p : ParsedData)
    (hero : Except Unit ImgResponse) (gal : List (Except Unit ImgResponse))
    (r1 r2 : Except Unit ImgResponse) (u1 u2 : String)
    (h1 : generateGallerySub r1 = some u1) (h2 : generateGallerySub r2 = some u2) :
    (∀ c : ContentResponse,
        (c = ContentResponse.apiError ∨ c = ContentResponse.missingText ∨
          c = ContentResponse.parseError) →
        generateGuide city country duration c hero gal = Except.error ())
    ∧ generateCityImage (Except.error ()) = none
    ∧ generateCityGallery gal = gal.filterMap generateGallerySub
    ∧ generateGuide city country duration (ContentResponse.json p) (Except.error ())
          [r1, Except.error (), r2]
        = Except.ok { sanitizeGuide city country p with
            imageUrl := none
            gallery := some [u1, u2] } := by
  refine ⟨?_, rfl, ?_, ?_⟩
  · rintro c (rfl | rfl | rfl) <;> rfl
  · simp [generateCityGallery, List.filterMap_map]
  · have hmid : generateGallerySub (Except.error ()) = none := rfl
    simp [generateGuide, generateCityGuide, generateCityGallery, generateCityImage,
      h1, h2, hmid]

/-- C1 witness: concrete run with an all-absent parsed guide, a failed hero
image and gallery outcomes success/failure/success. -/
theorem orchestration_fault_isolation_example :
    generateGuide "Rome" "Italy" "3"
        (ContentResponse.json ⟨none, none, none, none, none, none, none, none, none⟩)
        (Except.error ())
        [Except.ok ⟨some [⟨some ⟨"image/png", "AAA"⟩⟩]⟩,
          Except.error (),
          Except.ok ⟨some [⟨some ⟨"image/jpeg", "BBB"⟩⟩]⟩]
      = Except.ok { sanitizeGuide "Rome" "Italy" ⟨none, none, none, none, none, none, none, none, none⟩ with
          imageUrl := none
          gallery := some ["data:image/png;base64,AAA", "data:image/jpeg;base64,BBB"] } :=
  (orchestration_fault_isolation "Rome" "Italy" "3"
    ⟨none, none, none, none, none, none, none, none, none⟩
    (Except.error ()) []
    (Except.ok ⟨some [⟨some ⟨"image/png", "AAA"⟩⟩]⟩)
    (Except.ok ⟨some [⟨some ⟨"image/jpeg", "BBB"⟩⟩]⟩)
    "data:image/png;base64,AAA" "data:image/jpeg;base64,BBB" rfl rfl).2.2.2

/-- C2: the sanitized merge keeps `attractions`, `itinerary` and `localTips`
as arrays (empty when absent), substitutes the documented weather default
when `weather` is absent and the `(0, 0)` sentinel when `coordinates` is
absent, and the orchestrated merge always sets `gallery` to an array. -/
theorem merged_guide_defaults (city country duration : String) (p : ParsedData)
    (hero : Except Unit ImgResponse) (gal : List (Except Unit ImgResponse)) :
    (sanitizeGuide city country p).attractions = p.attractions.getD []
    ∧ (sanitizeGuide city country p).itinerary = p.itinerary.getD []
    ∧ (sanitizeGuide city country p).localTips = p.localTips.getD []
    ∧ (p.weather = none →
        (sanitizeGuide city country p).weather = ⟨"N/A", "Unknown", "Please check local forecast."⟩)
    ∧ (p.coordinates = none → (sanitizeGuide city country p).coordinates = ⟨0, 0⟩)
    ∧ generateGuide city country duration (ContentResponse.json p) hero gal
        = Except.ok { sanitizeGuide city country p with
            imageUrl := generateCityImage hero
            gallery := some (generateCityGallery gal) } := by
  refine ⟨rfl, rfl, rfl, ?_, ?_, ?_⟩
  · intro h; simp [sanitizeGuide, h]
  · intro h; simp [sanitizeGuide, h]
  · simp [generateGuide, generateCityGuide]

/-- C2 witness: a structured response with every field absent is merged to
the documented defaults. -/
theorem merged_guide_defaults_example :
    (sanitizeGuide "Rome" "Italy" ⟨none, none, none, none, none, none, none, none, none⟩).weather
        = ⟨"N/A", "Unknown", "Please check local forecast."⟩
    ∧ (sanitizeGuide "Rome" "Italy" ⟨none, none, none, none, none, none, none, none, none⟩).coordinates
        = ⟨0, 0⟩
    ∧ (sanitizeGuide "Rome" "Italy" ⟨none, none, none, none, none, none, none, none, none⟩).attractions
        = [] :=
  ⟨(merged_guide_defaults "Rome" "Italy" "1"
      ⟨none, none, none, none, none, none, none, none, none⟩ (Except.error ()) []).2.2.2.1 rfl,
    (merged_guide_defaults "Rome" "Italy" "1"
      ⟨none, none, none, none, none, none, none, none, none⟩ (Except.error ()) []).2.2.2.2.1 rfl,
    (merged_guide_defaults "Rome" "Italy" "1"
      ⟨none, none, none, none, none, none, none, none, none⟩ (Except.error ()) []).1⟩

/-- C3: on a fully-populated response whose string fields are all truthy,
the sanitizing merge is the identity: every parsed field is reproduced
unchanged. -/
theorem merge_identity_on_full_response (city country c k intr mc : String)
    (co : Coordinates) (w : WeatherSummary) (atts : List Attraction)
    (itin : List DailyItinerary) (tips : List LocalTip)
    (hc : c ≠ "") (hk : k ≠ "") (hi : intr ≠ "") (hm : mc ≠ "") :
    sanitizeGuide city country ⟨some c, some k, some co, some intr, some w, some atts, some mc, some itin, some tips⟩
      = ⟨c, k, co, intr, w, atts, mc, itin, tips, none, none⟩ := by
  simp [sanitizeGuide, jsStrOr, hc, hk, hi, hm]

/-- C3 witness: a concrete fully-populated response is reproduced
unchanged. -/
theorem merge_identity_on_full_response_example :
    sanitizeGuide "Rome" "Italy"
        ⟨some "Roma", some "Italia", some ⟨1, 2⟩, some "Ancient city.",
          some ⟨"20C", "Sunny", "Light jacket."⟩, some [], some "at_Hilly.", some [], some []⟩
      = ⟨"Roma", "Italia", ⟨1, 2⟩, "Ancient city.", ⟨"20C", "Sunny", "Light jacket."⟩,
          [], "at_Hilly.", [], [], none, none⟩ :=
  merge_identity_on_full_response "Rome" "Italy" "Roma" "Italia" "Ancient city." "at_Hilly."
    ⟨1, 2⟩ ⟨"20C", "Sunny", "Light jacket."⟩ [] [] []
    (by decide) (by decide) (by decide) (by decide)

/-- C4 counterexample: the string "0" parses to the integer 0, yet the
orchestrator uses 1 (JavaScript `parseInt(d) || 1` also replaces a parsed
0), so a parseable duration is not always used as-is. -/
theorem duration_zero_not_used_as_is :
    jsParseInt "0" = some 0 ∧ numDaysOf "0" = 1 ∧ numDaysOf "0" ≠ 0 := by
  decide

/-- C4 (amended): the duration is parsed with JavaScript `parseInt`
semantics and 1 is used when the string is unparseable or parses to 0; any
duration parsing to a nonzero integer is used as-is, and "" and "abc"
behave as duration 1. -/
theorem duration_parse_defaulting (city country d : String) :
    (∀ resp : ContentResponse, (generateCityGuide city country d resp).1.numDays = numDaysOf d)
    ∧ (jsParseInt d = none → numDaysOf d = 1)
    ∧ (∀ n : Int, jsParseInt d = some n → n ≠ 0 → numDaysOf d = n)
    ∧ numDaysOf "" = 1 ∧ numDaysOf "abc" = 1 := by
  refine ⟨fun resp => rfl, ?_, ?_, by decide, by decide⟩
  · intro h; simp [numDaysOf, h]
  · intro n h hn; simp [numDaysOf, h, hn]

/-- C4 witness: the duration "7" parses to 7 and is used as-is. -/
theorem duration_parse_defaulting_example : numDaysOf "7" = 7 :=
  (duration_parse_defaulting "Rome" "Italy" "7").2.2.1 7 (by decide) (by decide)

/-- C5: whenever the submit pipeline (native constraint validation followed
by `handleSubmit`) hands a payload to the orchestrator, its duration field
is non-empty and parses to an integer between 1 and 14. -/
theorem accepted_duration_in_range (s : FormComponentState) (f : FormState)
    (h : (submitForm s).2 = some f) :
    f.duration ≠ [] ∧ ∃ n : Int, parseIntStrict f.duration = some n ∧ 1 ≤ n ∧ n ≤ 14 := by
  rw [submitForm] at h
  by_cases hv : nativeFormValid s.formData = true
  · rw [if_pos hv] at h
    simp only [handleSubmit] at h
    have hf : f = s.formData := by
      by_cases hc : (!(trimStr s.formData.city).isEmpty && !(trimStr s.formData.country).isEmpty) = true
      · rw [if_pos hc] at h
        simp at h
        exact h.symm
      · rw [if_neg hc] at h
        exact absurd h (by simp)
    subst hf
    have hd : durationFieldValid s.formData.duration = true := by
      have hv2 := hv
      simp [nativeFormValid] at hv2
      exact hv2.2
    rw [durationFieldValid] at hd
    cases hp : parseIntStrict s.formData.duration with
    | none => rw [hp] at hd; exact absurd hd (by simp)
    | some n =>
      rw [hp] at hd
      simp at hd
      refine ⟨?_, n, rfl, hd.1, hd.2⟩
      intro he
      rw [he] at hp
      have hnone : parseIntStrict ([] : List Char) = none := by decide
      rw [hnone] at hp
      simp at hp
  · rw [if_neg hv] at h
    exact absurd h (by simp)

/-- C5 witness: a valid concrete submission is accepted and its duration
"5" parses to 5, which lies in the range. -/
theorem accepted_duration_in_range_example :
    ("5".data ≠ []) ∧ ∃ n : Int, parseIntStrict "5".data = some n ∧ 1 ≤ n ∧ n ≤ 14 :=
  accepted_duration_in_range
    ⟨⟨"Rome".data, "Italy".data, "5".data⟩, none, [], [], false, false⟩
    ⟨"Rome".data, "Italy".data, "5".data⟩ (by decide)

/-- C6: for a non-empty typed city value, the suggestion list is exactly
the directory entries whose city starts with the value case-insensitively,
restricted (when the country field is non-empty) to entries whose country
equals or contains the country field case-insensitively, in directory
order; with an empty country the result is exactly the prefix matches. -/
theorem city_matcher_exact (P C : List Char) (hP : P ≠ []) :
    matchCities P C = POPULAR_LOCATIONS.filter (fun loc =>
        (toLowerStr P).isPrefixOf (toLowerStr loc.city) &&
        (C.isEmpty ||
          ((toLowerStr loc.country == toLowerStr C) ||
            strIncludes (toLowerStr loc.country) (toLowerStr C))))
    ∧ matchCities P [] = POPULAR_LOCATIONS.filter (fun loc =>
        (toLowerStr P).isPrefixOf (toLowerStr loc.city)) := by
  have hpred : ∀ (C2 : List Char) (loc : Location), cityMatches P C2 loc =
      ((toLowerStr P).isPrefixOf (toLowerStr loc.city) &&
        (C2.isEmpty ||
          ((toLowerStr loc.country == toLowerStr C2) ||
            strIncludes (toLowerStr loc.country) (toLowerStr C2)))) := by
    intro C2 loc
    cases C2 with
    | nil => simp [cityMatches]
    | cons c cs => simp [cityMatches]
  have key : ∀ C2 : List Char, matchCities P C2 = POPULAR_LOCATIONS.filter (cityMatches P C2) := by
    intro C2
    by_cases htrim : trimStr P = []
    · rw [matchCities, if_neg (by simp [htrim])]
      obtain ⟨c, t, hPeq, hc⟩ := trim_nil_head_space P hP htrim
      symm
      apply filter_false_all
      intro loc hloc
      have hall := List.all_eq_true.mp locations_heads_ok loc hloc
      have hheadc : headIsSpace (toLowerStr loc.city) = false := by
        cases hv : headIsSpace (toLowerStr loc.city)
        · rfl
        · rw [Bool.and_eq_true] at hall
          rw [hv] at hall
          exact absurd hall.1 (by decide)
      subst hPeq
      have hpre : (toLowerStr (c :: t)).isPrefixOf (toLowerStr loc.city) = false := by
        rw [toLowerStr_cons, toLower_space hc]
        exact space_prefix_false hc _ _ hheadc
      simp [cityMatches, hpre]
    · rw [matchCities, if_pos (List.length_pos.mpr htrim)]
  constructor
  · rw [key C]
    exact List.filter_congr (fun loc _ => hpred C loc)
  · rw [key []]
    refine List.filter_congr (fun loc _ => ?_)
    rw [hpred [] loc]
    simp

/-- C6 witness: the prefix "pa" with an empty country field yields exactly
the prefix matches of the directory. -/
theorem city_matcher_exact_example :
    matchCities "pa".data [] = POPULAR_LOCATIONS.filter (fun loc =>
        (toLowerStr "pa".data).isPrefixOf (toLowerStr loc.city)) :=
  (city_matcher_exact "pa".data [] (by decide)).2

/-- C7: for a non-empty typed country value, the suggestion list has no
duplicates, preserves first-seen directory order, contains exactly the
directory country names starting with the value case-insensitively, and in
particular "fr" yields ["France"] once despite four French cities. -/
theorem country_matcher_unique (P : List Char) (hP : P ≠ []) :
    (matchCountries P).Nodup
    ∧ List.Sublist (matchCountries P)
        ((POPULAR_LOCATIONS.map (fun loc => loc.country)).filter
          (fun c => (toLowerStr P).isPrefixOf (toLowerStr c)))
    ∧ (∀ c : List Char, c ∈ matchCountries P ↔
        c ∈ (POPULAR_LOCATIONS.map (fun loc => loc.country)).filter
          (fun c2 => (toLowerStr P).isPrefixOf (toLowerStr c2)))
    ∧ matchCountries "fr".data = ["France".data] := by
  have hmc : matchCountries P = dedupFirst
      ((POPULAR_LOCATIONS.map (fun loc => loc.country)).filter
        (fun c => (toLowerStr P).isPrefixOf (toLowerStr c))) := by
    by_cases htrim : trimStr P = []
    · obtain ⟨c, t, hPeq, hc⟩ := trim_nil_head_space P hP htrim
      have hfil : (POPULAR_LOCATIONS.map (fun loc => loc.country)).filter
          (fun c2 => (toLowerStr P).isPrefixOf (toLowerStr c2)) = [] := by
        apply filter_false_all
        intro x hx
        obtain ⟨loc, hloc, rfl⟩ := List.mem_map.mp hx
        have hall := List.all_eq_true.mp locations_heads_ok loc hloc
        have hheadk : headIsSpace (toLowerStr loc.country) = false := by
          cases hv : headIsSpace (toLowerStr loc.country)
          · rfl
          · rw [Bool.and_eq_true] at hall
            rw [hv] at hall
            exact absurd hall.2 (by decide)
        subst hPeq
        rw [toLowerStr_cons, toLower_space hc]
        exact space_prefix_false hc _ _ hheadk
      rw [matchCountries, if_neg (by simp [htrim]), hfil]
      rfl
    · rw [matchCountries, if_pos (List.length_pos.mpr htrim)]
  refine ⟨?_, ?_, ?_, by decide⟩
  · rw [hmc]; exact nodup_dedupFirst _
  · rw [hmc]; exact dedupFirst_sublist _
  · intro c; rw [hmc]; exact mem_dedupFirst c _

/-- C7 witness: "fr" yields exactly ["France"], once. -/
theorem country_matcher_unique_example :
    matchCountries "fr".data = ["France".data] :=
  (country_matcher_unique "fr".data (by decide)).2.2.2

/-- C8: when the city or the country field is blank after trimming, the
submit handler rejects the submission silently: neither `handleSubmit` nor
the full pipeline hands a payload to the orchestrator. -/
theorem blank_fields_never_submit (s : FormComponentState)
    (h : trimStr s.formData.city = [] ∨ trimStr s.formData.country = []) :
    (handleSubmit s).2 = none ∧ (submitForm s).2 = none := by
  have h1 : (handleSubmit s).2 = none := by
    rcases h with h | h <;> simp [handleSubmit, h]
  refine ⟨h1, ?_⟩
  rw [submitForm]
  by_cases hv : nativeFormValid s.formData = true
  · rw [if_pos hv]; exact h1
  · rw [if_neg hv]

/-- C8 witness: a whitespace-only city is rejected. -/
theorem blank_fields_never_submit_example :
    (handleSubmit ⟨⟨" ".data, "Italy".data, "3".data⟩, none, [], [], true, true⟩).2 = none
    ∧ (submitForm ⟨⟨" ".data, "Italy".data, "3".data⟩, none, [], [], true, true⟩).2 = none :=
  blank_fields_never_submit
    ⟨⟨" ".data, "Italy".data, "3".data⟩, none, [], [], true, true⟩
    (Or.inl (by decide))

/-- C9: `jumpToMap` always switches the active tab to the map tab (a total
function, so it cannot throw), and its deferred single-shot re-center is
guarded: if no map surface is mounted when it fires it does nothing, and if
one is mounted it re-centers to the requested coordinates at zoom 15. -/
theorem jump_to_map_safe (lat lng : ℚ) (s : ResultViewState) :
    (jumpToMap lat lng s).1.activeTab = Tab.map
    ∧ (jumpToMap lat lng s).1.mapStyle = s.mapStyle
    ∧ (∀ s2 : ResultViewState, s2.mapRef = none → jumpDeferred lat lng s2 = s2)
    ∧ (∀ (s2 : ResultViewState) (m : MapView), s2.mapRef = some m →
        (jumpDeferred lat lng s2).mapRef = some ⟨(lat, lng), 15⟩) := by
  refine ⟨rfl, rfl, ?_, ?_⟩
  · intro s2 h2
    simp [jumpDeferred, h2]
  · intro s2 m h2
    simp [jumpDeferred, h2]

/-- C9 witness: jumping while no map surface is mounted switches the tab
and the deferred re-center does nothing. -/
theorem jump_to_map_safe_example :
    (jumpToMap 1 2 ⟨Tab.weather, MapStyle.street, none⟩).1.activeTab = Tab.map
    ∧ jumpDeferred 1 2 ⟨Tab.weather, MapStyle.street, none⟩ = ⟨Tab.weather, MapStyle.street, none⟩ :=
  ⟨(jump_to_map_safe 1 2 ⟨Tab.weather, MapStyle.street, none⟩).1,
    (jump_to_map_safe 1 2 ⟨Tab.weather, MapStyle.street, none⟩).2.2.1
      ⟨Tab.weather, MapStyle.street, none⟩ rfl⟩

/-- C10: `handleSubmit` always closes both dropdowns and clears the
active-field marker, before and regardless of the validity check, and
leaves the three field values unchanged. -/
theorem submit_always_closes_dropdowns (s : FormComponentState) :
    (handleSubmit s).1.showCityDropdown = false
    ∧ (handleSubmit s).1.showCountryDropdown = false
    ∧ (handleSubmit s).1.activeField = none
    ∧ (handleSubmit s).1.formData = s.formData := by
  rw [handleSubmit]
  split <;> exact ⟨rfl, rfl, rfl, rfl⟩
